import Mathlib

/-!
Shallow embedding of the product-documentation workflow system
(`src/app.py`, `src/model.py`, `src/utils/ai_generation.py`).

The aggregate is the `Product` row of `model.py`.  The two semi-structured
JSON documents `pis_data` (informational sheet) and `spec_data` (public
specsheet) are modelled as records whose fields are exactly the keys the
routes in `app.py` read and write; a field of value `Option τ` is `none`
when the key is absent or holds JSON `null` (the routes never distinguish
the two).  Flask form access `request.form.get(k)` is an `Option String`
(`none` when the field is absent); `request.form.getlist(k)` is a
`List String`.  External collaborators (the Gemini generator, `json.loads`
on its reply) are passed in as explicit response values, so every route
function is a pure state transformer on `Product`.
-/

set_option linter.unusedVariables false

/-- Python truthiness of `request.form.get(k)`: `None` and `""` are falsy. -/
def truthyS : Option String → Bool
  | some s => s ≠ ""
  | none => false

/-- Python `a or b` on two optional strings: the first operand is returned
when it is truthy (present and non-empty), otherwise the second. -/
def pyOrS (a b : Option String) : Option String :=
  match a with
  | some s => if s = "" then b else a
  | none => b

/-- Python `a or b` on two optional lists: the first operand is returned
when it is truthy (present and non-empty), otherwise the second. -/
def pyOrL (a b : Option (List String)) : Option (List String) :=
  match a with
  | some xs => if xs = [] then b else a
  | none => b

/-- Python substring test `pat in s`. -/
def substrOf (pat s : String) : Bool :=
  decide (pat.data <:+: s.data)

/-- Python `s.strip()`: leading and trailing whitespace removed.
(Defined over the character list so that it evaluates inside the kernel.) -/
def pyStrip (s : String) : String :=
  ⟨((s.data.dropWhile Char.isWhitespace).reverse.dropWhile
      Char.isWhitespace).reverse⟩

/-- `s.startswith(pre)`, evaluable in the kernel. -/
def pyStartsWith (s pre : String) : Bool :=
  pre.data.isPrefixOf s.data

/-- Split a character list at every separator character, keeping empty
pieces, as Python `re.split` on a character class (and `str.split` with an
explicit one-character separator) does. -/
def splitChars (p : Char → Bool) : List Char → List Char → List String
  | [], acc => [⟨acc.reverse⟩]
  | c :: cs, acc =>
    if p c then ⟨acc.reverse⟩ :: splitChars p cs []
    else splitChars p cs (c :: acc)

/-- Split a string at every character satisfying `p`. -/
def pySplit (s : String) (p : Char → Bool) : List String :=
  splitChars p s.data []

/-- Assignment `m[k] = v` on a Python dict rendered as an insertion-ordered
association list: an existing key keeps its position and gets the new value,
a new key is appended. -/
def pyDictInsert (m : List (String × String)) (k v : String) :
    List (String × String) :=
  if m.any (fun kv => kv.1 = k) then
    m.map (fun kv => if kv.1 = k then (k, v) else kv)
  else m ++ [(k, v)]

/-- Python `dict(zip(ks, vs))`: pairs are inserted left to right, truncating
to the shorter list; a repeated key keeps its first position and its last
value. -/
def dictZip (ks vs : List String) : List (String × String) :=
  (List.zip ks vs).foldl (fun m kv => pyDictInsert m kv.1 kv.2) []

/-- The `header_info` block of either document
(`app.py` writes exactly these four keys). -/
structure HeaderInfo where
  product_name : Option String
  model_number : Option String
  brand : Option String
  price_estimate : Option String
deriving DecidableEq, Repr

/-- The `warranty_service` block of `pis_data`. -/
structure Warranty where
  period : Option String
  coverage : Option String
deriving DecidableEq, Repr

/-- The `seo_data` block of `pis_data` (written at creation, read by the
specsheet initialisation fallbacks). -/
structure SeoData where
  generated_keywords : Option String
  meta_title : Option String
  meta_description : Option String
  seo_long_description : Option String
deriving DecidableEq, Repr

/-- The `seo` block of `spec_data`. -/
structure SeoBlock where
  meta_title : Option String
  meta_description : Option String
  keywords : Option String
deriving DecidableEq, Repr

/-- The `categories` block of `spec_data`. -/
structure Categories where
  category_1 : Option String
  category_2 : Option String
  category_3 : Option String
deriving DecidableEq, Repr

/-- The informational document `Product.pis_data`: the keys of the JSON
blob that `app.py` reads or writes. -/
structure PisData where
  header_info : Option HeaderInfo
  range_overview : Option String
  sales_arguments : Option (List String)
  technical_specifications : Option (List (String × String))
  warranty_service : Option Warranty
  seo_data : Option SeoData
deriving DecidableEq, Repr

def emptyPisData : PisData := ⟨none, none, none, none, none, none⟩

def emptySeoData : SeoData := ⟨none, none, none, none⟩

/-- The specsheet document `Product.spec_data`: the keys of the JSON blob
that `app.py` reads or writes. -/
structure SpecData where
  header_info : Option HeaderInfo
  customer_friendly_description : Option String
  refined_description : Option String
  key_features : Option (List String)
  internal_web_keywords : Option String
  long_tail_keywords : Option String
  seo : Option SeoBlock
  categories : Option Categories
  technical_specifications : Option (List (String × String))
deriving DecidableEq, Repr

def emptySpecData : SpecData :=
  ⟨none, none, none, none, none, none, none, none, none⟩

/-- A Python/JSON value as handled by `generate_ai_revision` and stored in
revision records ( `original` / `ai_suggestion` may be a string, a list, a
dict, or other JSON scalars). -/
inductive PyVal where
  | str (s : String)
  | int (n : Int)
  | bool (b : Bool)
  | noneV
  | list (xs : List PyVal)
  | dict (fs : List (String × PyVal))
deriving Repr

/-- Python `str(x)` as used on list items and parsed values inside
`generate_ai_revision`.  Scalars render as in Python; for lists and dicts
Python renders items with `repr` (quoting strings) — here nested items are
rendered with `str` instead, which keeps the renderings of containers
non-empty (they are bracketed) exactly as in Python, the only property the
boundary logic depends on. -/
def pyStr : PyVal → String
  | .str s => s
  | .int n => toString n
  | .bool b => if b then "True" else "False"
  | .noneV => "None"
  | .list xs => "[" ++ String.intercalate ", " (xs.attach.map (fun x => pyStr x.1)) ++ "]"
  | .dict fs => "\x7b" ++ String.intercalate ", " (fs.attach.map (fun f => f.1.1 ++ ": " ++ pyStr f.1.2)) ++ "\x7d"
decreasing_by
  · have h := List.sizeOf_lt_of_mem x.2
    simp only [PyVal.list.sizeOf_spec]
    omega
  · have h := List.sizeOf_lt_of_mem f.2
    obtain ⟨⟨k, v⟩, hv⟩ := f
    simp only [PyVal.dict.sizeOf_spec, Prod.mk.sizeOf_spec] at *
    omega

/-- A pending revision record as stored under one section key of
`Product.revision_data` (`app.py` review branches write exactly the keys
`comment`, `original`, `ai_suggestion`, `status`). -/
structure RevisionRecord where
  comment : String
  original : PyVal
  ai_suggestion : PyVal
  status : String
deriving Repr

/-- The `Product` row of `model.py`, restricted to the columns the
embedded routes read or write (`created_at` and the append-only history
table are untouched by every claim). -/
structure Product where
  model_name : String
  workflow_stage : String
  pis_data : Option PisData
  spec_data : Option SpecData
  revision_data : Option (List (String × RevisionRecord))
  image_path : Option String
  seo_keywords : Option String
  director_pis_comments : Option String
  director_spec_comments : Option String
  additional_images : List String
deriving Repr

/-- Outcome of one `model.generate_content` call inside
`generate_ai_revision` (`src/utils/ai_generation.py`): `failure` is an
exception from the generator (the outer `except` of lines 380-382);
`ok text parsed` is a reply with raw text `text`, where `parsed` records
the outcome of `json.loads` on the cleaned text (`none` when the parse
raises). -/
inductive GenResponse where
  | failure
  | ok (text : String) (parsed : Option PyVal)

/-- Markdown cleanup of the generator reply
(`ai_generation.py` lines 339-345). -/
def cleanMarkdown (s : String) : String :=
  if pyStartsWith s "```" then
    pyStrip (((s.replace "```json" "").replace "```python" "").replace "```" "")
  else s

/-- `re.split(r'[;\n•\-]', result)` of `ai_generation.py` line 371. -/
def splitSeps (s : String) : List String :=
  pySplit s (fun c => c = ';' || c = '\n' || c = '•' || c = '-')

/-- `generate_ai_revision` of `src/utils/ai_generation.py` (lines 280-382).
The generator reply is passed in as `resp`; `director_comment` feeds only
the prompt and is unused by the boundary logic.  In the source the three
`isinstance` returns of lines 357-363 all return `parsed` unchanged, which
the final match mirrors. -/
def generate_ai_revision (section_name : String) (original_content : PyVal)
    (director_comment : String) (resp : GenResponse) : PyVal :=
  match resp with
  | .failure => original_content
  | .ok text parsed =>
    let result := cleanMarkdown (pyStrip text)
    match parsed with
    | some psd =>
      if section_name = "sales_arguments" then
        match psd with
        | .list xs =>
            .list ((((xs.map (fun x => pyStrip (pyStr x))).filter
              (fun s => s ≠ ""))).map .str)
        | _ => .list [.str (pyStr psd)]
      else
        match original_content, psd with
        | .dict _, .dict _ => psd
        | .list _, .list _ => psd
        | _, _ => psd
    | none =>
      if section_name = "sales_arguments" then
        .list ((((splitSeps result).map pyStrip).filter
          (fun s => s ≠ "")).map .str)
      else
        match original_content with
        | .list _ =>
            .list ((((pySplit result (fun c => c = '\n')).map pyStrip).filter
              (fun s => s ≠ "")).map .str)
        | _ => .str result

/-- Render an optional string as the Python value stored under a document
key (`None` when the key was assigned `request.form.get` of a missing
field). -/
def optToPy : Option String → PyVal
  | some s => .str s
  | none => .noneV

/-- `HeaderInfo` as the Python dict value returned by
`product.pis_data.get('header_info')`. -/
def headerToPy (h : HeaderInfo) : PyVal :=
  .dict [("product_name", optToPy h.product_name),
         ("model_number", optToPy h.model_number),
         ("brand", optToPy h.brand),
         ("price_estimate", optToPy h.price_estimate)]

/-- `product.pis_data.get(section)` as used by the director review branch
(`app.py` line 661) to snapshot a section's original content. -/
def pisGet (u : PisData) (sec : String) : PyVal :=
  if sec = "header_info" then
    match u.header_info with
    | some h => headerToPy h
    | none => .noneV
  else if sec = "range_overview" then optToPy u.range_overview
  else if sec = "sales_arguments" then
    match u.sales_arguments with
    | some xs => .list (xs.map .str)
    | none => .noneV
  else if sec = "technical_specifications" then
    match u.technical_specifications with
    | some fs => .dict (fs.map (fun kv => (kv.1, .str kv.2)))
    | none => .noneV
  else if sec = "warranty_service" then
    match u.warranty_service with
    | some w => .dict [("period", optToPy w.period),
                       ("coverage", optToPy w.coverage)]
    | none => .noneV
  else .noneV

/-- Form fields read by the `review_pis_marketing` POST handler. -/
structure MarketingForm where
  product_name : Option String
  model_number : Option String
  brand : Option String
  price_estimate : Option String
  range_overview : Option String
  sales_arguments : List String
  spec_name : List String
  spec_value : List String
  warranty_period : Option String
  warranty_coverage : Option String
  action : Option String
deriving Repr

/-- POST branch of `review_pis_marketing` (`app.py` lines 555-598): the
marketing edit-and-save/submit route.  Every field of the informational
document is assigned from the form unconditionally; the stage moves to
`pending_director_pis` on submit, and from `marketing_draft` to
`marketing_in_progress` on a plain save.  No stage or role check guards
the handler. -/
def review_pis_marketing (p : Product) (f : MarketingForm) : Product :=
  let u0 := p.pis_data.getD emptyPisData
  let u : PisData :=
    { u0 with
      header_info := some ⟨f.product_name, f.model_number, f.brand,
        f.price_estimate⟩
      range_overview := f.range_overview
      sales_arguments := some f.sales_arguments
      technical_specifications := some (dictZip f.spec_name f.spec_value)
      warranty_service := some ⟨f.warranty_period, f.warranty_coverage⟩ }
  if f.action = some "submit_director" then
    { p with pis_data := some u, workflow_stage := "pending_director_pis" }
  else
    { p with pis_data := some u
             workflow_stage :=
               if p.workflow_stage = "marketing_draft" then
                 "marketing_in_progress"
               else p.workflow_stage }

/-- Form fields read by the `review_director_pis` POST handler. -/
structure DirectorPisForm where
  director_action : Option String
  product_name : Option String
  model_number : Option String
  brand : Option String
  price_estimate : Option String
  range_overview : Option String
  sales_argument : List String
  tech_spec_key : List String
  tech_spec_value : List String
  warranty_period : Option String
  warranty_coverage : Option String
  comment_header_info : Option String
  comment_range_overview : Option String
  comment_sales_arguments : Option String
  comment_technical_specifications : Option String
  comment_warranty_service : Option String
  director_general_comments : Option String
deriving Repr

/-- The director field edits of `review_director_pis`
(`app.py` lines 608-644): each block is applied only when its lead form
field is truthy (non-empty), and only to the informational document. -/
def directorPisEdits (f : DirectorPisForm) (u0 : PisData) : PisData :=
  let u1 := if truthyS f.product_name then
      { u0 with header_info := some ⟨f.product_name, f.model_number,
          f.brand, f.price_estimate⟩ }
    else u0
  let u2 := if truthyS f.range_overview then
      { u1 with range_overview := f.range_overview }
    else u1
  let cleanArgs := (f.sales_argument.map pyStrip).filter (fun a => a ≠ "")
  let u3 := if f.sales_argument.any (fun a => pyStrip a ≠ "") then
      { u2 with sales_arguments := some cleanArgs }
    else u2
  let zipped := dictZip f.tech_spec_key f.tech_spec_value
  let u4 := if f.tech_spec_key ≠ [] ∧ f.tech_spec_value ≠ [] then
      { u3 with technical_specifications := some zipped }
    else u3
  if truthyS f.warranty_period then
    { u4 with warranty_service := some ⟨f.warranty_period, f.warranty_coverage⟩ }
  else u4

/-- The `comments_map` of `review_director_pis` (`app.py` lines 648-654),
in its insertion order. -/
def directorPisCommentsMap (f : DirectorPisForm) :
    List (String × Option String) :=
  [("header_info", f.comment_header_info),
   ("range_overview", f.comment_range_overview),
   ("sales_arguments", f.comment_sales_arguments),
   ("technical_specifications", f.comment_technical_specifications),
   ("warranty_service", f.comment_warranty_service)]

/-- `if comment and comment.strip():` — a comment qualifies when present
and non-blank. -/
def qualifies : Option String → Bool
  | some c => c ≠ "" ∧ pyStrip c ≠ ""
  | none => false

/-- One iteration of a review loop (`app.py` lines 658-672): a section
whose comment is present and non-blank appends a record with the snapshot
`original`, the generator suggestion and status `pending`; any other
section is skipped. -/
def revStep (orig : String → PyVal)
    (gen : String → PyVal → String → GenResponse)
    (acc : List (String × RevisionRecord)) (sc : String × Option String) :
    List (String × RevisionRecord) :=
  match sc.2 with
  | some cm =>
      if cm ≠ "" ∧ pyStrip cm ≠ "" then
        acc ++ [(sc.1,
          { comment := cm
            original := orig sc.1
            ai_suggestion :=
              generate_ai_revision sc.1 (orig sc.1) cm (gen sc.1 (orig sc.1) cm)
            status := "pending" })]
      else acc
  | none => acc

/-- The `new_revisions` dict built by a review loop (`app.py` lines
656-672): one record per section whose comment qualifies, in map order. -/
def buildRevisions (pairs : List (String × Option String))
    (orig : String → PyVal)
    (gen : String → PyVal → String → GenResponse) :
    List (String × RevisionRecord) :=
  pairs.foldl (revStep orig gen) []

/-- The fallback `initial_spec_data` built when
`generate_comprehensive_spec_data` raises during director approval
(`app.py` lines 705-723). -/
def fallbackSpecData (u : PisData) : SpecData :=
  { header_info := none
    customer_friendly_description :=
      some ((u.seo_data.getD emptySeoData).seo_long_description.getD "")
    refined_description :=
      some ((u.seo_data.getD emptySeoData).seo_long_description.getD "")
    key_features := some (u.sales_arguments.getD [])
    internal_web_keywords := none
    long_tail_keywords := some ""
    seo := some ⟨some ((u.seo_data.getD emptySeoData).meta_title.getD ""),
                 some ((u.seo_data.getD emptySeoData).meta_description.getD ""),
                 some ((u.seo_data.getD emptySeoData).generated_keywords.getD "")⟩
    categories := some ⟨some "Home & Garden", some "Home Deco", some "Lighting"⟩
    technical_specifications := none }

/-- POST branch of `review_director_pis` (`app.py` lines 601-732).  Field
edits are applied to the informational document for every action;
`review` builds a fresh revision set for the qualifying comments, stores
the general comment and moves to `marketing_changes_requested`; `approve`
installs the generated (or fallback) specsheet document plus the PIS
technical specifications, clears `revision_data` and moves to
`ready_for_web`; any other action commits just the edits.  `gen` is the
per-section generator oracle and `specGen` the outcome of
`generate_comprehensive_spec_data`. -/
def review_director_pis (p : Product) (f : DirectorPisForm)
    (gen : String → PyVal → String → GenResponse)
    (specGen : Except Unit SpecData) : Product :=
  let u := directorPisEdits f (p.pis_data.getD emptyPisData)
  let base := { p with pis_data := some u }
  if f.director_action = some "review" then
    let revs := buildRevisions (directorPisCommentsMap f) (pisGet u) gen
    { base with
      revision_data := some revs
      director_pis_comments := f.director_general_comments
      workflow_stage := "marketing_changes_requested" }
  else if f.director_action = some "approve" then
    let pisSpecs := u.technical_specifications.getD []
    let sd : SpecData :=
      match specGen with
      | .ok g => { g with technical_specifications := some pisSpecs }
      | .error _ => fallbackSpecData u
    { base with
      spec_data := some sd
      workflow_stage := "ready_for_web"
      revision_data := none }
  else base

/-- Lookup of a section key in the `revision_data` dict. -/
def lookupSec : List (String × RevisionRecord) → String → Option RevisionRecord
  | [], _ => none
  | kv :: t, sec => if kv.1 = sec then some kv.2 else lookupSec t sec

/-- `retry_revision` (`app.py` lines 1085-1113): re-runs the generator for
one named section and overwrites only that record's `ai_suggestion`,
returning the new suggestion; rejected with a 400 error when the product
has no revision data or no record for the section (`if not
product.revision_data or section not in product.revision_data`). -/
def retry_revision (p : Product) (sec : String) (resp : GenResponse) :
    Except String (Product × PyVal) :=
  let revs := p.revision_data.getD []
  match lookupSec revs sec with
  | none => .error "No revision data"
  | some rev =>
    let newSug := generate_ai_revision sec rev.original rev.comment resp
    let revs' := revs.map (fun kv =>
      if kv.1 = sec then (kv.1, { kv.2 with ai_suggestion := newSug }) else kv)
    .ok ({ p with revision_data := some revs' }, newSug)

/-- `api_delete_image` (`app.py` lines 1148-1177): deleting the primary
image promotes the first additional image when one exists; deleting an
additional image removes its first occurrence; a path matching nothing is
still a success; a missing or empty path is a 400 error (`if not
path_to_delete`). -/
def api_delete_image (p : Product) (path : Option String) :
    Except String Product :=
  match path with
  | none => .error "No path provided"
  | some pt =>
    if pt = "" then .error "No path provided"
    else if p.image_path = some pt then
      match p.additional_images with
      | [] => .ok { p with image_path := none }
      | x :: rest =>
        .ok { p with image_path := some x, additional_images := rest }
    else if pt ∈ p.additional_images then
      .ok { p with additional_images := p.additional_images.erase pt }
    else .ok p

/-- The JSON body accepted by `api_save_draft`: a field is `some v` when
its key is present in the posted object (`'k' in data`) with value `v`,
and `none` when absent; `data.get(k)` on an absent key is then `none`. -/
structure DraftData where
  product_name : Option String
  model_number : Option String
  brand : Option String
  price_estimate : Option String
  range_overview : Option String
  customer_friendly_description : Option String
  key_features : Option (List String)
  sales_argument : Option (List String)
  sales_arguments : Option (List String)
  technical_specifications : Option (List (String × String))
  warranty_period : Option String
  warranty_coverage : Option String
  seo_meta_title : Option String
  seo_meta_description : Option String
  seo_keywords : Option String
  seo_meta_keywords : Option String
  internal_web_keywords : Option String
  category_1 : Option String
  category_2 : Option String
  category_3 : Option String
  director_general_comments : Option String
deriving DecidableEq, Repr

/-- The empty posted object, rejected by the `if not data` guard. -/
def emptyDraftData : DraftData :=
  ⟨none, none, none, none, none, none, none, none, none, none, none,
   none, none, none, none, none, none, none, none, none, none⟩

/-- The feature-list operand chain of `api_save_draft` step 3:
`data.get('key_features') or data.get('sales_argument') or
data.get('sales_arguments')`. -/
def draftFeatures (d : DraftData) : Option (List String) :=
  pyOrL d.key_features (pyOrL d.sales_argument d.sales_arguments)

/-- The `h_info` header dict built by step 1 of `api_save_draft`
(`app.py` lines 1196-1201). -/
def draftHeader (d : DraftData) : HeaderInfo :=
  ⟨d.product_name, d.model_number, d.brand, d.price_estimate⟩

/-- The cleaned feature list of step 3 (`app.py` line 1223). -/
def draftClean (fs : List String) : List String :=
  (fs.map pyStrip).filter (fun x => x ≠ "")

/-- Step 1 on the informational document: header update when
`'product_name' in data`. -/
def pisHeaderStep (d : DraftData) (a : PisData) : PisData :=
  if d.product_name.isSome then { a with header_info := some (draftHeader d) }
  else a

/-- Step 2 on the informational document: `'range_overview' in data`. -/
def pisRangeStep (d : DraftData) (a : PisData) : PisData :=
  match d.range_overview with
  | some desc => { a with range_overview := some desc }
  | none => a

/-- Step 2 continued: `'customer_friendly_description' in data` syncs back
to the PIS `range_overview`. -/
def pisCfdStep (d : DraftData) (a : PisData) : PisData :=
  match d.customer_friendly_description with
  | some desc => { a with range_overview := some desc }
  | none => a

/-- Step 3 on the informational document: feature-list sync. -/
def pisFeaturesStep (d : DraftData) (a : PisData) : PisData :=
  match draftFeatures d with
  | some fs => { a with sales_arguments := some (draftClean fs) }
  | none => a

/-- Step 4 on the informational document: technical-specification sync. -/
def pisTechStep (d : DraftData) (a : PisData) : PisData :=
  match d.technical_specifications with
  | some ts => { a with technical_specifications := some ts }
  | none => a

/-- Step 5: `'warranty_period' in data`. -/
def pisWarrantyStep (d : DraftData) (a : PisData) : PisData :=
  if d.warranty_period.isSome then
    { a with warranty_service := some ⟨d.warranty_period, d.warranty_coverage⟩ }
  else a

/-- Steps 1-5 of `api_save_draft` on the informational document
(`app.py` lines 1191-1238), in source order. -/
def savePis (d : DraftData) (a : PisData) : PisData :=
  pisWarrantyStep d (pisTechStep d (pisFeaturesStep d (pisCfdStep d
    (pisRangeStep d (pisHeaderStep d a)))))

/-- Step 1 on the specsheet document. -/
def specHeaderStep (d : DraftData) (b : SpecData) : SpecData :=
  if d.product_name.isSome then { b with header_info := some (draftHeader d) }
  else b

/-- Step 2 on the specsheet document: description synced from
`range_overview`. -/
def specRangeStep (d : DraftData) (b : SpecData) : SpecData :=
  match d.range_overview with
  | some desc => { b with customer_friendly_description := some desc,
                          refined_description := some desc }
  | none => b

/-- Step 2 continued on the specsheet document. -/
def specCfdStep (d : DraftData) (b : SpecData) : SpecData :=
  match d.customer_friendly_description with
  | some desc => { b with customer_friendly_description := some desc,
                          refined_description := some desc }
  | none => b

/-- Step 3 on the specsheet document: feature-list sync. -/
def specFeaturesStep (d : DraftData) (b : SpecData) : SpecData :=
  match draftFeatures d with
  | some fs => { b with key_features := some (draftClean fs) }
  | none => b

/-- Step 4 on the specsheet document: technical-specification sync. -/
def specTechStep (d : DraftData) (b : SpecData) : SpecData :=
  match d.technical_specifications with
  | some ts => { b with technical_specifications := some ts }
  | none => b

/-- Step 6: `'seo_meta_title' in data`. -/
def specSeoStep (d : DraftData) (b : SpecData) : SpecData :=
  if d.seo_meta_title.isSome then
    { b with seo := some ⟨d.seo_meta_title, d.seo_meta_description,
        pyOrS d.seo_keywords d.seo_meta_keywords⟩ }
  else b

/-- Step 6 continued: `'internal_web_keywords' in data`. -/
def specIwkStep (d : DraftData) (b : SpecData) : SpecData :=
  if d.internal_web_keywords.isSome then
    { b with internal_web_keywords := d.internal_web_keywords }
  else b

/-- Step 7: `'category_1' in data`. -/
def specCatsStep (d : DraftData) (b : SpecData) : SpecData :=
  if d.category_1.isSome then
    { b with categories := some ⟨d.category_1, d.category_2, d.category_3⟩ }
  else b

/-- Steps 1-7 of `api_save_draft` on the specsheet document
(`app.py` lines 1191-1256), in source order. -/
def saveSpec (d : DraftData) (b : SpecData) : SpecData :=
  specCatsStep d (specIwkStep d (specSeoStep d (specTechStep d
    (specFeaturesStep d (specCfdStep d (specRangeStep d
      (specHeaderStep d b)))))))

/-- Steps 1-7 of `api_save_draft` (`app.py` lines 1191-1256): the document
updates.  The source interleaves assignments to the two JSON blobs
`updated_pis_data` and `updated_spec_data`; no step reads the other
document, so the updates split into one chain per document, each in
source order. -/
def saveDocs (d : DraftData) (pis0 : PisData) (spec0 : SpecData) :
    PisData × SpecData :=
  (savePis d pis0, saveSpec d spec0)

/-- Step 8 of `api_save_draft` (`app.py` lines 1258-1264): the director
general comment is routed to one of the two comment columns by substring
tests on the current workflow stage. -/
def saveComments (d : DraftData) (p : Product) : Product :=
  if d.director_general_comments.isSome then
    if substrOf "pending_director_pis" p.workflow_stage
        || substrOf "marketing_changes" p.workflow_stage then
      { p with director_pis_comments := d.director_general_comments }
    else if substrOf "pending_director_spec" p.workflow_stage
        || substrOf "web_changes" p.workflow_stage then
      { p with director_spec_comments := d.director_general_comments }
    else p
  else p

/-- `api_save_draft` (`app.py` lines 1181-1275): the JSON auto-save
endpoint.  An empty body is rejected (`if not data`) leaving the product
unchanged; otherwise the document updates of `saveDocs` and the comment
routing of `saveComments` are committed. -/
def api_save_draft (p : Product) (d : DraftData) : Product :=
  if d = emptyDraftData then p
  else
    let docs := saveDocs d (p.pis_data.getD emptyPisData)
      (p.spec_data.getD emptySpecData)
    let p1 := saveComments d p
    { p1 with pis_data := some docs.1, spec_data := some docs.2 }

/-- Net effect of the two sequential description steps on one description
field: the `customer_friendly_description` assignment overrides the
`range_overview` one. -/
def descUpdate (d : DraftData) (old : Option String) : Option String :=
  match d.customer_friendly_description with
  | some c => some c
  | none => match d.range_overview with
    | some r => some r
    | none => old

/-- Closed form of `savePis`: each field of the informational document
after a draft save. -/
def pisAfter (d : DraftData) (a : PisData) : PisData where
  header_info := if d.product_name.isSome then some (draftHeader d) else a.header_info
  range_overview := descUpdate d a.range_overview
  sales_arguments := match draftFeatures d with | some fs => some (draftClean fs) | none => a.sales_arguments
  technical_specifications := match d.technical_specifications with | some ts => some ts | none => a.technical_specifications
  warranty_service := if d.warranty_period.isSome then some ⟨d.warranty_period, d.warranty_coverage⟩ else a.warranty_service
  seo_data := a.seo_data

/-- Closed form of `saveSpec`: each field of the specsheet document after
a draft save. -/
def specAfter (d : DraftData) (b : SpecData) : SpecData where
  header_info := if d.product_name.isSome then some (draftHeader d) else b.header_info
  customer_friendly_description := descUpdate d b.customer_friendly_description
  refined_description := descUpdate d b.refined_description
  key_features := match draftFeatures d with | some fs => some (draftClean fs) | none => b.key_features
  internal_web_keywords := if d.internal_web_keywords.isSome then d.internal_web_keywords else b.internal_web_keywords
  long_tail_keywords := b.long_tail_keywords
  seo := if d.seo_meta_title.isSome then some ⟨d.seo_meta_title, d.seo_meta_description, pyOrS d.seo_keywords d.seo_meta_keywords⟩ else b.seo
  categories := if d.category_1.isSome then some ⟨d.category_1, d.category_2, d.category_3⟩ else b.categories
  technical_specifications := match d.technical_specifications with | some ts => some ts | none => b.technical_specifications

theorem pisHeaderStep_eq (d : DraftData) (a : PisData) : pisHeaderStep d a =
    { a with header_info := if d.product_name.isSome then some (draftHeader d) else a.header_info } := by
  unfold pisHeaderStep
  cases h : d.product_name.isSome <;> simp [h]

theorem pisRangeStep_eq (d : DraftData) (a : PisData) : pisRangeStep d a =
    { a with range_overview := match d.range_overview with | some desc => some desc | none => a.range_overview } := by
  unfold pisRangeStep
  cases d.range_overview <;> rfl

theorem pisCfdStep_eq (d : DraftData) (a : PisData) : pisCfdStep d a =
    { a with range_overview := match d.customer_friendly_description with | some desc => some desc | none => a.range_overview } := by
  unfold pisCfdStep
  cases d.customer_friendly_description <;> rfl

theorem pisFeaturesStep_eq (d : DraftData) (a : PisData) : pisFeaturesStep d a =
    { a with sales_arguments := match draftFeatures d with | some fs => some (draftClean fs) | none => a.sales_arguments } := by
  unfold pisFeaturesStep
  cases draftFeatures d <;> rfl

theorem pisTechStep_eq (d : DraftData) (a : PisData) : pisTechStep d a =
    { a with technical_specifications := match d.technical_specifications with | some ts => some ts | none => a.technical_specifications } := by
  unfold pisTechStep
  cases d.technical_specifications <;> rfl

theorem pisWarrantyStep_eq (d : DraftData) (a : PisData) : pisWarrantyStep d a =
    { a with warranty_service := if d.warranty_period.isSome then some ⟨d.warranty_period, d.warranty_coverage⟩ else a.warranty_service } := by
  unfold pisWarrantyStep
  cases h : d.warranty_period.isSome <;> simp [h]

/-- The informational document after a draft save, field by field. -/
theorem savePis_eq (d : DraftData) (a : PisData) : savePis d a = pisAfter d a := by
  unfold savePis
  rw [pisHeaderStep_eq, pisRangeStep_eq, pisCfdStep_eq, pisFeaturesStep_eq,
    pisTechStep_eq, pisWarrantyStep_eq]
  rfl

theorem specHeaderStep_eq (d : DraftData) (b : SpecData) : specHeaderStep d b =
    { b with header_info := if d.product_name.isSome then some (draftHeader d) else b.header_info } := by
  unfold specHeaderStep
  cases h : d.product_name.isSome <;> simp [h]

theorem specRangeStep_eq (d : DraftData) (b : SpecData) : specRangeStep d b =
    { b with customer_friendly_description := match d.range_overview with | some desc => some desc | none => b.customer_friendly_description,
             refined_description := match d.range_overview with | some desc => some desc | none => b.refined_description } := by
  unfold specRangeStep
  cases d.range_overview <;> rfl

theorem specCfdStep_eq (d : DraftData) (b : SpecData) : specCfdStep d b =
    { b with customer_friendly_description := match d.customer_friendly_description with | some desc => some desc | none => b.customer_friendly_description,
             refined_description := match d.customer_friendly_description with | some desc => some desc | none => b.refined_description } := by
  unfold specCfdStep
  cases d.customer_friendly_description <;> rfl

theorem specFeaturesStep_eq (d : DraftData) (b : SpecData) : specFeaturesStep d b =
    { b with key_features := match draftFeatures d with | some fs => some (draftClean fs) | none => b.key_features } := by
  unfold specFeaturesStep
  cases draftFeatures d <;> rfl

theorem specTechStep_eq (d : DraftData) (b : SpecData) : specTechStep d b =
    { b with technical_specifications := match d.technical_specifications with | some ts => some ts | none => b.technical_specifications } := by
  unfold specTechStep
  cases d.technical_specifications <;> rfl

theorem specSeoStep_eq (d : DraftData) (b : SpecData) : specSeoStep d b =
    { b with seo := if d.seo_meta_title.isSome then some ⟨d.seo_meta_title, d.seo_meta_description, pyOrS d.seo_keywords d.seo_meta_keywords⟩ else b.seo } := by
  unfold specSeoStep
  cases h : d.seo_meta_title.isSome <;> simp [h]

theorem specIwkStep_eq (d : DraftData) (b : SpecData) : specIwkStep d b =
    { b with internal_web_keywords := if d.internal_web_keywords.isSome then d.internal_web_keywords else b.internal_web_keywords } := by
  unfold specIwkStep
  cases h : d.internal_web_keywords.isSome <;> simp [h]

theorem specCatsStep_eq (d : DraftData) (b : SpecData) : specCatsStep d b =
    { b with categories := if d.category_1.isSome then some ⟨d.category_1, d.category_2, d.category_3⟩ else b.categories } := by
  unfold specCatsStep
  cases h : d.category_1.isSome <;> simp [h]

/-- The specsheet document after a draft save, field by field. -/
theorem saveSpec_eq (d : DraftData) (b : SpecData) : saveSpec d b = specAfter d b := by
  unfold saveSpec
  rw [specHeaderStep_eq, specRangeStep_eq, specCfdStep_eq, specFeaturesStep_eq,
    specTechStep_eq, specSeoStep_eq, specIwkStep_eq, specCatsStep_eq]
  rfl

theorem descUpdate_idem (d : DraftData) (o : Option String) :
    descUpdate d (descUpdate d o) = descUpdate d o := by
  unfold descUpdate
  cases d.customer_friendly_description <;> cases d.range_overview <;> rfl

theorem pisAfter_idem (d : DraftData) (a : PisData) :
    pisAfter d (pisAfter d a) = pisAfter d a := by
  unfold pisAfter
  congr 1
  · cases h : d.product_name.isSome <;> simp [h]
  · exact descUpdate_idem d a.range_overview
  · cases draftFeatures d <;> rfl
  · cases d.technical_specifications <;> rfl
  · cases h : d.warranty_period.isSome <;> simp [h]

theorem specAfter_idem (d : DraftData) (b : SpecData) :
    specAfter d (specAfter d b) = specAfter d b := by
  unfold specAfter
  congr 1
  · cases h : d.product_name.isSome <;> simp [h]
  · exact descUpdate_idem d b.customer_friendly_description
  · exact descUpdate_idem d b.refined_description
  · cases draftFeatures d <;> rfl
  · cases h : d.internal_web_keywords.isSome <;> simp [h]
  · cases h : d.seo_meta_title.isSome <;> simp [h]
  · cases h : d.category_1.isSome <;> simp [h]
  · cases d.technical_specifications <;> rfl

theorem saveComments_of_update (d : DraftData) (p : Product)
    (x : Option PisData) (y : Option SpecData) :
    saveComments d ({ saveComments d p with pis_data := x, spec_data := y }) =
    { saveComments d p with pis_data := x, spec_data := y } := by
  unfold saveComments
  cases hd : d.director_general_comments.isSome <;>
  cases hc1 : substrOf "pending_director_pis" p.workflow_stage
      || substrOf "marketing_changes" p.workflow_stage <;>
  cases hc2 : substrOf "pending_director_spec" p.workflow_stage
      || substrOf "web_changes" p.workflow_stage <;>
  simp [hd, hc1, hc2]

/-- `api_save_draft` in terms of the closed forms of both documents. -/
theorem api_save_draft_eq (p : Product) (d : DraftData)
    (hd : ¬ d = emptyDraftData) :
    api_save_draft p d =
    { saveComments d p with
      pis_data := some (pisAfter d (p.pis_data.getD emptyPisData)),
      spec_data := some (specAfter d (p.spec_data.getD emptySpecData)) } := by
  unfold api_save_draft saveDocs
  rw [if_neg hd, savePis_eq, saveSpec_eq]

theorem lookupSec_map_self (revs : List (String × RevisionRecord))
    (sec : String) (g : RevisionRecord → RevisionRecord) (rev : RevisionRecord)
    (h : lookupSec revs sec = some rev) :
    lookupSec (revs.map (fun kv =>
      if kv.1 = sec then (kv.1, g kv.2) else kv)) sec = some (g rev) := by
  induction revs with
  | nil => simp [lookupSec] at h
  | cons kv t ih =>
    by_cases hk : kv.1 = sec
    · rw [lookupSec, if_pos hk] at h
      have hv : kv.2 = rev := Option.some.inj h
      simp only [List.map_cons, if_pos hk, lookupSec, if_pos hk, hv]
    · rw [lookupSec, if_neg hk] at h
      simp only [List.map_cons, if_neg hk, lookupSec, if_neg hk]
      exact ih h

theorem lookupSec_map_other (revs : List (String × RevisionRecord))
    (sec s : String) (g : RevisionRecord → RevisionRecord) (hs : s ≠ sec) :
    lookupSec (revs.map (fun kv =>
      if kv.1 = sec then (kv.1, g kv.2) else kv)) s = lookupSec revs s := by
  induction revs with
  | nil => simp [lookupSec]
  | cons kv t ih =>
    by_cases hk : kv.1 = sec
    · have hne : ¬ kv.1 = s := fun hc => hs (hc ▸ hk ▸ rfl)
      have hne2 : ¬ sec = s := fun hc => hs hc.symm
      simp only [List.map_cons, if_pos hk, lookupSec, if_neg hne, if_neg hne2]
      exact ih
    · by_cases hks : kv.1 = s
      · simp only [List.map_cons, if_neg hk, lookupSec, if_pos hks]
      · simp only [List.map_cons, if_neg hk, lookupSec, if_neg hks]
        exact ih

/-- C5: the edit-set application `api_save_draft` is idempotent — applying
the same posted edit set twice yields the same final aggregate state as
applying it once. -/
theorem claim_C5_save_draft_idempotent (p : Product) (d : DraftData) :
    api_save_draft (api_save_draft p d) d = api_save_draft p d := by
  by_cases hd : d = emptyDraftData
  · simp [api_save_draft, hd]
  · rw [api_save_draft_eq p d hd]
    rw [api_save_draft_eq _ d hd]
    simp only [Option.getD_some]
    rw [pisAfter_idem, specAfter_idem, saveComments_of_update]

/-- A finalized product, as left by a completed workflow. -/
def c1Product : Product where
  model_name := "Fridge X"
  workflow_stage := "finalized"
  pis_data := some { emptyPisData with
                     header_info := some ⟨some "Fridge X", some "FX-100", some "Acme", some "999"⟩,
                     range_overview := some "A very good fridge." }
  spec_data := some emptySpecData
  revision_data := none
  image_path := none
  seo_keywords := none
  director_pis_comments := none
  director_spec_comments := none
  additional_images := []

/-- A marketing submit-to-director form. -/
def c1Form : MarketingForm where
  product_name := some "Fridge X"
  model_number := some "FX-100"
  brand := some "Acme"
  price_estimate := some "999"
  range_overview := some "A very good fridge."
  sales_arguments := ["Cools fast"]
  spec_name := []
  spec_value := []
  warranty_period := some "2 years"
  warranty_coverage := some "parts"
  action := some "submit_director"

/-- C1: the legal-transition table is not enforced.  `finalized` is the
terminal stage (spec §4.1: no outbound transitions), yet the marketing
submit handler applies the transition anyway: the stage moves from
`finalized` to `pending_director_pis` (the code's name for
`pending_review_informational`) and the documents are rewritten — no
`IllegalTransition` error exists anywhere in the code and the aggregate is
not left unchanged. -/
theorem claim_C1_illegal_transition_applied :
    c1Product.workflow_stage = "finalized" ∧
    (review_pis_marketing c1Product c1Form).workflow_stage =
      "pending_director_pis" := by
  exact ⟨rfl, rfl⟩

/-- C10: `api_delete_image` on a provided (non-empty) path: deleting the
primary promotes the first additional image when one exists and otherwise
nulls the primary; a path matching neither the primary nor any additional
image still succeeds and leaves the product (hence its images) unchanged. -/
theorem claim_C10_delete_image (p : Product) (pt : String) (hpt : pt ≠ "") :
    (p.image_path = some pt →
      (∀ x rest, p.additional_images = x :: rest →
        api_delete_image p (some pt) =
          .ok { p with image_path := some x, additional_images := rest }) ∧
      (p.additional_images = [] →
        api_delete_image p (some pt) = .ok { p with image_path := none })) ∧
    (p.image_path ≠ some pt → pt ∉ p.additional_images →
      api_delete_image p (some pt) = .ok p) := by
  refine ⟨fun hmain => ⟨fun x rest hadd => ?_, fun hadd => ?_⟩,
    fun hmain hadd => ?_⟩
  · simp only [api_delete_image]
    rw [if_neg hpt, if_pos hmain, hadd]
  · simp only [api_delete_image]
    rw [if_neg hpt, if_pos hmain, hadd]
  · simp only [api_delete_image]
    rw [if_neg hpt, if_neg hmain, if_neg hadd]

/-- A product with a primary image and two additional images. -/
def c10Product : Product where
  model_name := "Fridge X"
  workflow_stage := "finalized"
  pis_data := none
  spec_data := none
  revision_data := none
  image_path := some "uploads/a.png"
  seo_keywords := none
  director_pis_comments := none
  director_spec_comments := none
  additional_images := ["uploads/b.png", "uploads/c.png"]

/-- C10 witness: deleting the primary of `c10Product` promotes
`uploads/b.png`; deleting an unknown path succeeds and changes nothing. -/
theorem claim_C10_delete_image_witness :
    api_delete_image c10Product (some "uploads/a.png") =
      .ok { c10Product with
            image_path := some "uploads/b.png",
            additional_images := ["uploads/c.png"] } ∧
    api_delete_image c10Product (some "uploads/zzz.png") = .ok c10Product := by
  constructor
  · exact ((claim_C10_delete_image c10Product "uploads/a.png" (by decide)).1
      rfl).1 "uploads/b.png" ["uploads/c.png"] rfl
  · exact (claim_C10_delete_image c10Product "uploads/zzz.png" (by decide)).2
      (by decide) (by decide)

theorem retry_revision_none (p : Product) (sec : String) (resp : GenResponse)
    (hnone : lookupSec (p.revision_data.getD []) sec = none) :
    retry_revision p sec resp = .error "No revision data" := by
  simp only [retry_revision]
  rw [hnone]

theorem retry_revision_some (p : Product) (sec : String) (resp : GenResponse)
    (rev : RevisionRecord)
    (hsome : lookupSec (p.revision_data.getD []) sec = some rev) :
    ∃ p' sug, retry_revision p sec resp = .ok (p', sug) ∧
      sug = generate_ai_revision sec rev.original rev.comment resp ∧
      p'.workflow_stage = p.workflow_stage ∧
      p'.pis_data = p.pis_data ∧
      p'.spec_data = p.spec_data ∧
      p'.image_path = p.image_path ∧
      p'.additional_images = p.additional_images ∧
      lookupSec (p'.revision_data.getD []) sec =
        some { rev with ai_suggestion := sug } ∧
      (∀ s, s ≠ sec →
        lookupSec (p'.revision_data.getD []) s =
          lookupSec (p.revision_data.getD []) s) := by
  simp only [retry_revision]
  rw [hsome]
  refine ⟨_, _, rfl, rfl, rfl, rfl, rfl, rfl, rfl, ?_, ?_⟩
  · simp only [Option.getD_some]
    exact lookupSec_map_self _ sec
      (fun r => { r with ai_suggestion :=
        generate_ai_revision sec rev.original rev.comment resp }) rev hsome
  · intro s hs
    simp only [Option.getD_some]
    exact lookupSec_map_other _ sec s
      (fun r => { r with ai_suggestion :=
        generate_ai_revision sec rev.original rev.comment resp }) hs

/-- C7: `retry_revision` regenerates the suggestion for exactly the named
section: on a section with a pending record it succeeds, leaves the stage,
both documents and the image fields untouched, stores the regenerated
suggestion in place (keeping `comment`, `original` and `status` of the
record, and the records of all other sections, unchanged) and returns it;
on a section with no pending record it fails with the 400 error of the
route (the `UnknownSection` rejection of the spec). -/
theorem claim_C7_retry_revision (p : Product) (sec : String)
    (resp : GenResponse) :
    (lookupSec (p.revision_data.getD []) sec = none →
      retry_revision p sec resp = .error "No revision data") ∧
    (∀ rev, lookupSec (p.revision_data.getD []) sec = some rev →
      ∃ p' sug, retry_revision p sec resp = .ok (p', sug) ∧
        sug = generate_ai_revision sec rev.original rev.comment resp ∧
        p'.workflow_stage = p.workflow_stage ∧
        p'.pis_data = p.pis_data ∧
        p'.spec_data = p.spec_data ∧
        p'.image_path = p.image_path ∧
        p'.additional_images = p.additional_images ∧
        lookupSec (p'.revision_data.getD []) sec =
          some { rev with ai_suggestion := sug } ∧
        (∀ s, s ≠ sec →
          lookupSec (p'.revision_data.getD []) s =
            lookupSec (p.revision_data.getD []) s)) :=
  ⟨retry_revision_none p sec resp,
   fun rev hsome => retry_revision_some p sec resp rev hsome⟩

/-- A product sent back by the director with one pending revision on the
overview section: the director comment, the snapshot and a previously
generated suggestion. -/
def c7Product : Product where
  model_name := "Fridge X"
  workflow_stage := "marketing_changes_requested"
  pis_data := some { emptyPisData with range_overview := some "Short text." }
  spec_data := none
  revision_data := some [("range_overview",
    { comment := "too short", original := PyVal.str "Short text.",
      ai_suggestion := PyVal.str "A previously suggested longer text.",
      status := "pending" })]
  image_path := none
  seo_keywords := none
  director_pis_comments := some "too short"
  director_spec_comments := none
  additional_images := []

/-- C7 witness: retrying `range_overview` on `c7Product` with a reply that
parses as plain text stores exactly that text as the new suggestion and
touches nothing else; retrying a section without a record is rejected. -/
theorem claim_C7_retry_revision_witness :
    (∃ p' sug,
      retry_revision c7Product "range_overview"
        (GenResponse.ok "A fresh suggestion." none) = .ok (p', sug) ∧
      sug = PyVal.str "A fresh suggestion." ∧
      p'.workflow_stage = c7Product.workflow_stage ∧
      p'.pis_data = c7Product.pis_data) ∧
    retry_revision c7Product "sales_arguments"
      (GenResponse.ok "A fresh suggestion." none) =
      .error "No revision data" := by
  constructor
  · obtain ⟨p', sug, hok, hsug, hstage, hpis, _⟩ :=
      (claim_C7_retry_revision c7Product "range_overview"
        (GenResponse.ok "A fresh suggestion." none)).2
        { comment := "too short", original := PyVal.str "Short text.",
          ai_suggestion := PyVal.str "A previously suggested longer text.",
          status := "pending" } (by rfl)
    refine ⟨p', sug, hok, ?_, hstage, hpis⟩
    rw [hsug]
    rfl
  · exact (claim_C7_retry_revision c7Product "sales_arguments"
      (GenResponse.ok "A fresh suggestion." none)).1 (by rfl)

/-- A product with one pending revision whose previous suggestion `"B"`
differs from its snapshot `"A"`. -/
def c8Product : Product where
  model_name := "Fridge X"
  workflow_stage := "marketing_changes_requested"
  pis_data := some { emptyPisData with range_overview := some "A" }
  spec_data := none
  revision_data := some [("range_overview",
    { comment := "too short", original := PyVal.str "A",
      ai_suggestion := PyVal.str "B", status := "pending" })]
  image_path := none
  seo_keywords := none
  director_pis_comments := some "too short"
  director_spec_comments := none
  additional_images := []

/-- C8 counterexample: on generator failure the retry does not return the
previous `ai_suggestion` — it returns (and stores) the record's
`original` content instead.  On `c7Product`-like data with
`original = "A"` and previous suggestion `"B"`, the failed retry yields
`"A"`, not the previous `"B"`. -/
theorem claim_C8_counterexample :
    retry_revision c8Product "range_overview" GenResponse.failure =
      .ok ({ c8Product with
             revision_data := some [("range_overview",
               { comment := "too short", original := PyVal.str "A",
                 ai_suggestion := PyVal.str "A", status := "pending" })] },
           PyVal.str "A") ∧
    PyVal.str "A" ≠ PyVal.str "B" := by
  constructor
  · rfl
  · intro h
    simp at h

/-- C8 (amended): when the generator call for a revision retry fails, the
retry does not raise — but it returns the record's `original` snapshot
(not the previous `ai_suggestion`), stores that snapshot as the new
suggestion, and leaves the product's stage and both documents untouched. -/
theorem claim_C8_retry_failure_returns_original (p : Product) (sec : String)
    (rev : RevisionRecord)
    (h : lookupSec (p.revision_data.getD []) sec = some rev) :
    ∃ p', retry_revision p sec GenResponse.failure = .ok (p', rev.original) ∧
      p'.workflow_stage = p.workflow_stage ∧
      p'.pis_data = p.pis_data ∧
      p'.spec_data = p.spec_data ∧
      lookupSec (p'.revision_data.getD []) sec =
        some { rev with ai_suggestion := rev.original } := by
  obtain ⟨p', sug, hok, hsug, hstage, hpis, hspec, _, _, hsec, _⟩ :=
    retry_revision_some p sec GenResponse.failure rev h
  have hfail : sug = rev.original := hsug
  exact ⟨p', hfail ▸ hok, hstage, hpis, hspec, hfail ▸ hsec⟩

/-- C8 witness: the failed retry on `c8Product` (previous suggestion
`"B"`, snapshot `"A"`) succeeds, returns `"A"`, and leaves stage and
documents untouched. -/
theorem claim_C8_retry_failure_returns_original_witness :
    ∃ p', retry_revision c8Product "range_overview" GenResponse.failure =
        .ok (p', PyVal.str "A") ∧
      p'.workflow_stage = c8Product.workflow_stage ∧
      p'.pis_data = c8Product.pis_data ∧
      p'.spec_data = c8Product.spec_data := by
  obtain ⟨p', hok, hstage, hpis, hspec, _⟩ :=
    claim_C8_retry_failure_returns_original c8Product "range_overview"
      { comment := "too short", original := PyVal.str "A",
        ai_suggestion := PyVal.str "B", status := "pending" } (by rfl)
  exact ⟨p', hok, hstage, hpis, hspec⟩

/-- C9 (amended): the type contract of the revision generator boundary as
the code actually enforces it.  For the `sales_arguments` section a list
original always yields a list, whose items are non-empty strings whenever
the reply parses as a JSON list or fails to parse.  For any other section:
a map original with a reply parsing as a map stores that map; a list
original with a reply parsing as a list stores that list, and with an
unparsable reply is repaired to a list of non-empty strings — but a reply
that parses as a JSON value of the wrong shape is stored as parsed,
without rejection or repair (see the counterexample). -/
theorem claim_C9_generator_type_contract (sec : String) (orig : PyVal)
    (cm : String) (resp : GenResponse) :
    (sec = "sales_arguments" → ∀ xs, orig = PyVal.list xs →
      ∃ ys, generate_ai_revision sec orig cm resp = PyVal.list ys) ∧
    (sec = "sales_arguments" → ∀ t xs,
      resp = GenResponse.ok t (some (PyVal.list xs)) →
      ∃ ys : List String, generate_ai_revision sec orig cm resp =
          PyVal.list (ys.map PyVal.str) ∧ ∀ s ∈ ys, s ≠ "") ∧
    (sec = "sales_arguments" → ∀ t, resp = GenResponse.ok t none →
      ∃ ys : List String, generate_ai_revision sec orig cm resp =
          PyVal.list (ys.map PyVal.str) ∧ ∀ s ∈ ys, s ≠ "") ∧
    (sec ≠ "sales_arguments" → ∀ fs t gs, orig = PyVal.dict fs →
      resp = GenResponse.ok t (some (PyVal.dict gs)) →
      generate_ai_revision sec orig cm resp = PyVal.dict gs) ∧
    (sec ≠ "sales_arguments" → ∀ xs t ys, orig = PyVal.list xs →
      resp = GenResponse.ok t (some (PyVal.list ys)) →
      generate_ai_revision sec orig cm resp = PyVal.list ys) ∧
    (sec ≠ "sales_arguments" → ∀ xs t, orig = PyVal.list xs →
      resp = GenResponse.ok t none →
      ∃ ys : List String, generate_ai_revision sec orig cm resp =
          PyVal.list (ys.map PyVal.str) ∧ ∀ s ∈ ys, s ≠ "") := by
  refine ⟨?_, ?_, ?_, ?_, ?_, ?_⟩
  · rintro hsec xs horig
    subst hsec horig
    cases resp with
    | failure => exact ⟨xs, rfl⟩
    | ok t parsed =>
      cases parsed with
      | none => exact ⟨_, rfl⟩
      | some psd =>
        cases psd with
        | str s => exact ⟨_, rfl⟩
        | int n => exact ⟨_, rfl⟩
        | bool b => exact ⟨_, rfl⟩
        | noneV => exact ⟨_, rfl⟩
        | list ys => exact ⟨_, rfl⟩
        | dict fs => exact ⟨_, rfl⟩
  · rintro hsec t xs hresp
    subst hsec hresp
    refine ⟨(xs.map (fun x => pyStrip (pyStr x))).filter (fun s => s ≠ ""),
      rfl, ?_⟩
    intro s hs
    have := (List.mem_filter.mp hs).2
    simpa using this
  · rintro hsec t hresp
    subst hsec hresp
    refine ⟨((splitSeps (cleanMarkdown (pyStrip t))).map pyStrip).filter
      (fun s => s ≠ ""), rfl, ?_⟩
    intro s hs
    have := (List.mem_filter.mp hs).2
    simpa using this
  · rintro hsec fs t gs horig hresp
    subst horig hresp
    simp only [generate_ai_revision]
    rw [if_neg hsec]
  · rintro hsec xs t ys horig hresp
    subst horig hresp
    simp only [generate_ai_revision]
    rw [if_neg hsec]
  · rintro hsec xs t horig hresp
    subst horig hresp
    simp only [generate_ai_revision]
    rw [if_neg hsec]
    exact ⟨((pySplit (cleanMarkdown (pyStrip t)) (fun c => c = '\n')).map
      pyStrip).filter (fun s => s ≠ ""), rfl, fun s hs => by
        have := (List.mem_filter.mp hs).2
        simpa using this⟩

/-- C9 witness: a map-typed section (`header_info`) with a reply parsing
as a map stores exactly that map, and an unparsable reply for a list
original is repaired to a list. -/
theorem claim_C9_generator_type_contract_witness :
    generate_ai_revision "header_info"
      (PyVal.dict [("brand", PyVal.str "Acme")]) "fix the brand"
      (GenResponse.ok "irrelevant"
        (some (PyVal.dict [("brand", PyVal.str "Acme Ltd")]))) =
      PyVal.dict [("brand", PyVal.str "Acme Ltd")] := by
  exact (claim_C9_generator_type_contract "header_info"
    (PyVal.dict [("brand", PyVal.str "Acme")]) "fix the brand"
    (GenResponse.ok "irrelevant"
      (some (PyVal.dict [("brand", PyVal.str "Acme Ltd")])))).2.2.2.1
    (by decide) [("brand", PyVal.str "Acme")] "irrelevant"
    [("brand", PyVal.str "Acme Ltd")] rfl rfl

/-- C9 counterexample: the contract is not enforced at the boundary for a
reply of the wrong shape.  `header_info` originals are maps, yet a reply
that parses as the JSON string `"hello"` is stored as that string — not
rejected, not repaired into a map. -/
theorem claim_C9_counterexample :
    generate_ai_revision "header_info"
      (PyVal.dict [("product_name", PyVal.str "Fridge X")])
      "use a catchier name"
      (GenResponse.ok "\"hello\"" (some (PyVal.str "hello"))) =
      PyVal.str "hello" ∧
    (∀ fs, PyVal.str "hello" ≠ PyVal.dict fs) := by
  refine ⟨rfl, ?_⟩
  intro fs h
  exact PyVal.noConfusion h

theorem lookupSec_append (l1 l2 : List (String × RevisionRecord))
    (sec : String) :
    lookupSec (l1 ++ l2) sec =
      match lookupSec l1 sec with
      | some r => some r
      | none => lookupSec l2 sec := by
  induction l1 with
  | nil => rfl
  | cons kv t ih =>
    by_cases hk : kv.1 = sec
    · simp [lookupSec, hk]
    · simp [lookupSec, hk, ih]

theorem buildRevisions_aux (pairs : List (String × Option String))
    (orig : String → PyVal) (gen : String → PyVal → String → GenResponse)
    (sec : String) (acc : List (String × RevisionRecord)) :
    (lookupSec (pairs.foldl (revStep orig gen) acc) sec).isSome =
      ((lookupSec acc sec).isSome ||
        pairs.any (fun sc => sc.1 = sec && qualifies sc.2)) := by
  induction pairs generalizing acc with
  | nil => simp
  | cons sc t ih =>
    rw [List.foldl_cons, ih]
    rcases sc with ⟨s0, c0⟩
    cases c0 with
    | none => simp [revStep, qualifies]
    | some cm =>
      by_cases hq : cm ≠ "" ∧ pyStrip cm ≠ ""
      · simp only [revStep]
        rw [if_pos hq, lookupSec_append]
        have hqual : qualifies (some cm) = true := by
          simp [qualifies, hq.1, hq.2]
        cases hlk : lookupSec acc sec with
        | some r => simp [hlk, hqual]
        | none =>
          by_cases hs : s0 = sec
          · simp [hlk, hqual, hs, lookupSec]
          · simp [hlk, hqual, hs, lookupSec]
      · simp only [revStep]
        rw [if_neg hq]
        have hqual : qualifies (some cm) = false := by
          simp only [qualifies]
          simpa using hq
        simp [hqual]

/-- After a `review` action the stored revision set has a record for a
section exactly when that section's comment was present and non-blank. -/
theorem buildRevisions_lookup (pairs : List (String × Option String))
    (orig : String → PyVal) (gen : String → PyVal → String → GenResponse)
    (sec : String) :
    (lookupSec (buildRevisions pairs orig gen) sec).isSome =
      pairs.any (fun sc => sc.1 = sec && qualifies sc.2) := by
  rw [buildRevisions, buildRevisions_aux]
  simp [lookupSec]

/-- C3 (amended): the two atomicity halves of the claim hold — a director
approval atomically clears `revision_data` and a director change request
atomically replaces it with a fresh set, independent of the previous one,
holding a record exactly for each section whose comment is present and
non-blank.  The biconditional half of the claim fails: the revision set
also survives, unchanged, transitions out of the changes-requested stages
(see the counterexample), and may be empty inside one. -/
theorem claim_C3_pending_revisions_lifecycle (p : Product)
    (f : DirectorPisForm) (gen : String → PyVal → String → GenResponse)
    (sg : Except Unit SpecData) :
    (f.director_action = some "approve" →
      (review_director_pis p f gen sg).revision_data = none) ∧
    (f.director_action = some "review" →
      ∃ revs, (review_director_pis p f gen sg).revision_data = some revs ∧
        (review_director_pis { p with revision_data := none } f gen
          sg).revision_data = some revs ∧
        ∀ sec, (lookupSec revs sec).isSome =
          (directorPisCommentsMap f).any
            (fun sc => sc.1 = sec && qualifies sc.2)) := by
  constructor
  · intro ha
    simp only [review_director_pis]
    rw [ha, if_neg (by decide), if_pos rfl]
  · intro hr
    refine ⟨buildRevisions (directorPisCommentsMap f)
      (pisGet (directorPisEdits f (p.pis_data.getD emptyPisData))) gen,
      ?_, ?_, ?_⟩
    · simp only [review_director_pis]
      rw [hr, if_pos rfl]
    · simp only [review_director_pis]
      rw [hr, if_pos rfl]
    · intro sec
      exact buildRevisions_lookup _ _ gen sec

/-- A freshly created product: `marketing_draft`, populated informational
document, no revisions. -/
def c3Start : Product where
  model_name := "Fridge X"
  workflow_stage := "marketing_draft"
  pis_data := some { emptyPisData with
                     header_info := some ⟨some "Fridge X", some "FX-100", some "Acme", some "999"⟩,
                     range_overview := some "A very good fridge." }
  spec_data := none
  revision_data := none
  image_path := none
  seo_keywords := none
  director_pis_comments := none
  director_spec_comments := none
  additional_images := []

/-- The marketing submit form of the C3 run. -/
def c3SubmitForm : MarketingForm where
  product_name := some "Fridge X"
  model_number := some "FX-100"
  brand := some "Acme"
  price_estimate := some "999"
  range_overview := some "A very good fridge."
  sales_arguments := ["Cools fast"]
  spec_name := ["Capacity"]
  spec_value := ["300 L"]
  warranty_period := some "2 years"
  warranty_coverage := some "parts"
  action := some "submit_director"

/-- The director change-request form of the C3 run: one non-blank comment
on the header section. -/
def c3ReviewForm : DirectorPisForm where
  director_action := some "review"
  product_name := none
  model_number := none
  brand := none
  price_estimate := none
  range_overview := none
  sales_argument := []
  tech_spec_key := []
  tech_spec_value := []
  warranty_period := none
  warranty_coverage := none
  comment_header_info := some "too short"
  comment_range_overview := none
  comment_sales_arguments := none
  comment_technical_specifications := none
  comment_warranty_service := none
  director_general_comments := some "needs work"

/-- The product reached by: marketing submit, director requests changes,
marketing submits again — a chain of three embedded route calls. -/
def c3P3 : Product :=
  review_pis_marketing
    (review_director_pis (review_pis_marketing c3Start c3SubmitForm)
      c3ReviewForm (fun _ _ _ => GenResponse.failure) (Except.error ()))
    c3SubmitForm

/-- C3 counterexample: a reachable state in which `pendingRevisions` is
non-empty while the stage is `pending_director_pis` — not a
changes-requested stage.  The marketing resubmit route never clears
`revision_data`, so the set created by the director survives the
transition, refuting the claimed biconditional. -/
theorem claim_C3_counterexample :
    c3P3.workflow_stage = "pending_director_pis" ∧
    c3P3.workflow_stage ≠ "marketing_changes_requested" ∧
    c3P3.workflow_stage ≠ "web_changes_requested" ∧
    (c3P3.revision_data.getD []).length = 1 := by
  refine ⟨rfl, by decide, by decide, rfl⟩

/-- The director approval form of the C3 witness. -/
def c3ApproveForm : DirectorPisForm where
  director_action := some "approve"
  product_name := none
  model_number := none
  brand := none
  price_estimate := none
  range_overview := none
  sales_argument := []
  tech_spec_key := []
  tech_spec_value := []
  warranty_period := none
  warranty_coverage := none
  comment_header_info := none
  comment_range_overview := none
  comment_sales_arguments := none
  comment_technical_specifications := none
  comment_warranty_service := none
  director_general_comments := none

/-- C3 witness: a concrete approval clears `revision_data`, and a concrete
change request stores a set whose only record is the commented section. -/
theorem claim_C3_pending_revisions_lifecycle_witness :
    (review_director_pis c3Start c3ApproveForm
      (fun _ _ _ => GenResponse.failure) (Except.error ())).revision_data =
      none ∧
    ∃ revs, (review_director_pis c3Start c3ReviewForm
        (fun _ _ _ => GenResponse.failure)
        (Except.error ())).revision_data = some revs ∧
      (lookupSec revs "header_info").isSome = true ∧
      (lookupSec revs "range_overview").isSome = false := by
  constructor
  · exact (claim_C3_pending_revisions_lifecycle c3Start c3ApproveForm
      (fun _ _ _ => GenResponse.failure) (Except.error ())).1 rfl
  · obtain ⟨revs, hrevs, _, hlk⟩ :=
      (claim_C3_pending_revisions_lifecycle c3Start c3ReviewForm
        (fun _ _ _ => GenResponse.failure) (Except.error ())).2 rfl
    refine ⟨revs, hrevs, ?_, ?_⟩
    · rw [hlk "header_info"]
      decide
    · rw [hlk "range_overview"]
      decide

/-- A product awaiting director review of the informational document. -/
def c6Product : Product where
  model_name := "Fridge X"
  workflow_stage := "pending_director_pis"
  pis_data := some { emptyPisData with
                     header_info := some ⟨some "Fridge X", some "FX-100", some "Acme", some "999"⟩,
                     range_overview := some "A very good fridge." }
  spec_data := none
  revision_data := none
  image_path := none
  seo_keywords := none
  director_pis_comments := none
  director_spec_comments := none
  additional_images := []

/-- A director change request with no section comment at all. -/
def c6Form : DirectorPisForm where
  director_action := some "review"
  product_name := none
  model_number := none
  brand := none
  price_estimate := none
  range_overview := none
  sales_argument := []
  tech_spec_key := []
  tech_spec_value := []
  warranty_period := none
  warranty_coverage := none
  comment_header_info := none
  comment_range_overview := none
  comment_sales_arguments := none
  comment_technical_specifications := none
  comment_warranty_service := none
  director_general_comments := none

/-- C6: the required-comment validation does not exist.  A director
change request from `pending_director_pis` with every section comment
absent is not rejected with a `ValidationError`: the stage still moves to
`marketing_changes_requested` (the code's `changes_requested_informational`)
and an empty revision set is installed — the mutation happens although the
spec requires rejection before any mutation.  (The second half of the
claim — records created for exactly the non-empty comments when there are
some — does hold; see the C3 lifecycle theorem.) -/
theorem claim_C6_missing_comment_validation :
    c6Form.comment_header_info = none ∧
    c6Form.comment_range_overview = none ∧
    c6Form.comment_sales_arguments = none ∧
    c6Form.comment_technical_specifications = none ∧
    c6Form.comment_warranty_service = none ∧
    (review_director_pis c6Product c6Form
      (fun _ _ _ => GenResponse.failure)
      (Except.error ())).workflow_stage = "marketing_changes_requested" ∧
    (review_director_pis c6Product c6Form
      (fun _ _ _ => GenResponse.failure)
      (Except.error ())).revision_data = some [] := by
  exact ⟨rfl, rfl, rfl, rfl, rfl, rfl, rfl⟩

/-- A product whose two documents are both present and currently agree on
the shared header block (as after an approval and a publishing save). -/
def c2Product : Product where
  model_name := "Fridge X"
  workflow_stage := "pending_director_pis"
  pis_data := some { emptyPisData with
                     header_info := some ⟨some "Old Name", some "FX-100", some "Acme", some "999"⟩,
                     range_overview := some "A very good fridge." }
  spec_data := some { emptySpecData with
                      header_info := some ⟨some "Old Name", some "FX-100", some "Acme", some "999"⟩,
                      customer_friendly_description := some "A very good fridge." }
  revision_data := none
  image_path := none
  seo_keywords := none
  director_pis_comments := none
  director_spec_comments := none
  additional_images := []

/-- A director change request that also edits the shared `product_name`
field. -/
def c2Form : DirectorPisForm where
  director_action := some "review"
  product_name := some "New Name"
  model_number := some "FX-100"
  brand := some "Acme"
  price_estimate := some "999"
  range_overview := none
  sales_argument := []
  tech_spec_key := []
  tech_spec_value := []
  warranty_period := none
  warranty_coverage := none
  comment_header_info := some "sharpen the name"
  comment_range_overview := none
  comment_sales_arguments := none
  comment_technical_specifications := none
  comment_warranty_service := none
  director_general_comments := none

/-- C2 counterexample: the director review route commits a header edit to
the informational document only.  After the commit both documents are
non-null, yet the shared header identity block differs between them
(`product_name` is `"New Name"` in the informational document and still
`"Old Name"` in the specsheet). -/
theorem claim_C2_counterexample :
    (review_director_pis c2Product c2Form
      (fun _ _ _ => GenResponse.failure) (Except.error ())).pis_data.isSome ∧
    (review_director_pis c2Product c2Form
      (fun _ _ _ => GenResponse.failure) (Except.error ())).spec_data.isSome ∧
    ((review_director_pis c2Product c2Form
      (fun _ _ _ => GenResponse.failure)
      (Except.error ())).pis_data.getD emptyPisData).header_info ≠
    ((review_director_pis c2Product c2Form
      (fun _ _ _ => GenResponse.failure)
      (Except.error ())).spec_data.getD emptySpecData).header_info := by
  refine ⟨rfl, rfl, ?_⟩
  decide

/-- C2 (amended): the shared-field identity holds after every edit
committed through the synchronization endpoint `api_save_draft`, for
exactly the shared fields the edit supplies: the header identity block,
the narrative description, the feature list and the technical
specification table are written identically to both documents.  Edits
committed through the director review route update only the informational
document and can break the identity (see the counterexample). -/
theorem claim_C2_shared_fields_synced_by_save_draft (p : Product)
    (d : DraftData) :
    (d.product_name.isSome →
      ((api_save_draft p d).pis_data.getD emptyPisData).header_info =
      ((api_save_draft p d).spec_data.getD emptySpecData).header_info) ∧
    ((d.range_overview.isSome ∨ d.customer_friendly_description.isSome) →
      ((api_save_draft p d).spec_data.getD
        emptySpecData).customer_friendly_description =
      ((api_save_draft p d).pis_data.getD emptyPisData).range_overview) ∧
    ((draftFeatures d).isSome →
      ((api_save_draft p d).pis_data.getD emptyPisData).sales_arguments =
      ((api_save_draft p d).spec_data.getD emptySpecData).key_features) ∧
    (d.technical_specifications.isSome →
      ((api_save_draft p d).pis_data.getD
        emptyPisData).technical_specifications =
      ((api_save_draft p d).spec_data.getD
        emptySpecData).technical_specifications) := by
  by_cases hd : d = emptyDraftData
  · subst hd
    refine ⟨?_, ?_, ?_, ?_⟩
    · intro h
      simp [emptyDraftData] at h
    · intro h
      simp [emptyDraftData] at h
    · intro h
      simp [emptyDraftData, draftFeatures, pyOrL] at h
    · intro h
      simp [emptyDraftData] at h
  · rw [api_save_draft_eq p d hd]
    simp only [Option.getD_some]
    refine ⟨?_, ?_, ?_, ?_⟩
    · intro h
      simp [pisAfter, specAfter, h]
    · intro h
      simp only [pisAfter, specAfter, descUpdate]
      cases hc : d.customer_friendly_description with
      | some c => rfl
      | none =>
        cases hro : d.range_overview with
        | some r => rfl
        | none =>
          rcases h with h | h
          · rw [hro] at h
            simp at h
          · rw [hc] at h
            simp at h
    · intro h
      cases hft : draftFeatures d with
      | some fs => simp [pisAfter, specAfter, hft]
      | none =>
        rw [hft] at h
        simp at h
    · intro h
      cases hts : d.technical_specifications with
      | some ts => simp [pisAfter, specAfter, hts]
      | none =>
        rw [hts] at h
        simp at h

/-- A fully populated draft-save body touching every shared field. -/
def c2Draft : DraftData where
  product_name := some "New Name"
  model_number := some "FX-100"
  brand := some "Acme"
  price_estimate := some "999"
  range_overview := some "A much better fridge."
  customer_friendly_description := none
  key_features := some ["Cools fast", "Quiet"]
  sales_argument := none
  sales_arguments := none
  technical_specifications := some [("Capacity", "300 L")]
  warranty_period := none
  warranty_coverage := none
  seo_meta_title := none
  seo_meta_description := none
  seo_keywords := none
  seo_meta_keywords := none
  internal_web_keywords := none
  category_1 := none
  category_2 := none
  category_3 := none
  director_general_comments := none

/-- C2 witness: after a concrete draft save supplying all four shared
fields, the two documents agree on each of them. -/
theorem claim_C2_shared_fields_synced_by_save_draft_witness :
    ((api_save_draft c2Product c2Draft).pis_data.getD
      emptyPisData).header_info =
    ((api_save_draft c2Product c2Draft).spec_data.getD
      emptySpecData).header_info ∧
    ((api_save_draft c2Product c2Draft).spec_data.getD
      emptySpecData).customer_friendly_description =
    ((api_save_draft c2Product c2Draft).pis_data.getD
      emptyPisData).range_overview ∧
    ((api_save_draft c2Product c2Draft).pis_data.getD
      emptyPisData).sales_arguments =
    ((api_save_draft c2Product c2Draft).spec_data.getD
      emptySpecData).key_features ∧
    ((api_save_draft c2Product c2Draft).pis_data.getD
      emptyPisData).technical_specifications =
    ((api_save_draft c2Product c2Draft).spec_data.getD
      emptySpecData).technical_specifications := by
  have h := claim_C2_shared_fields_synced_by_save_draft c2Product c2Draft
  exact ⟨h.1 rfl, h.2.1 (Or.inl rfl), h.2.2.1 rfl, h.2.2.2 rfl⟩

/-- A product whose documents agree on a non-empty header. -/
def c4Product : Product where
  model_name := "Fridge X"
  workflow_stage := "specsheet_draft"
  pis_data := some { emptyPisData with
                     header_info := some ⟨some "Fridge X", some "FX-100", some "Acme", some "999"⟩ }
  spec_data := some { emptySpecData with
                      header_info := some ⟨some "Fridge X", some "FX-100", some "Acme", some "999"⟩ }
  revision_data := none
  image_path := none
  seo_keywords := none
  director_pis_comments := none
  director_spec_comments := none
  additional_images := []

/-- A draft-save body supplying an empty `product_name` and nothing else. -/
def c4Draft : DraftData where
  product_name := some ""
  model_number := none
  brand := none
  price_estimate := none
  range_overview := none
  customer_friendly_description := none
  key_features := none
  sales_argument := none
  sales_arguments := none
  technical_specifications := none
  warranty_period := none
  warranty_coverage := none
  seo_meta_title := none
  seo_meta_description := none
  seo_keywords := none
  seo_meta_keywords := none
  internal_web_keywords := none
  category_1 := none
  category_2 := none
  category_3 := none
  director_general_comments := none

/-- C4 counterexample: a draft save whose `product_name` is the empty
string — an "empty value" — replaces the whole header block of both
documents, erasing the existing non-empty name `"Fridge X"` (and the
model number, brand and price with it). -/
theorem claim_C4_counterexample :
    c4Draft.product_name = some "" ∧
    (c4Product.spec_data.getD emptySpecData).header_info =
      some ⟨some "Fridge X", some "FX-100", some "Acme", some "999"⟩ ∧
    ((api_save_draft c4Product c4Draft).spec_data.getD
      emptySpecData).header_info = some ⟨some "", none, none, none⟩ ∧
    ((api_save_draft c4Product c4Draft).pis_data.getD
      emptyPisData).header_info = some ⟨some "", none, none, none⟩ := by
  exact ⟨rfl, rfl, rfl, rfl⟩

/-- C4 (amended): the no-overwrite protection that actually exists in
`api_save_draft`: an edit whose key is absent never overwrites, and an
empty feature list supplied under `key_features` (or `sales_argument`)
falls through the `or` chain and does not overwrite; but an empty string
supplied for a header or description field does overwrite existing
non-empty values (see the counterexample), as does an empty list supplied
under `sales_arguments`. -/
theorem claim_C4_absent_edit_protection (p : Product) (d : DraftData) :
    (d.product_name = none →
      ((api_save_draft p d).pis_data.getD emptyPisData).header_info =
        (p.pis_data.getD emptyPisData).header_info ∧
      ((api_save_draft p d).spec_data.getD emptySpecData).header_info =
        (p.spec_data.getD emptySpecData).header_info) ∧
    (d.range_overview = none → d.customer_friendly_description = none →
      ((api_save_draft p d).pis_data.getD emptyPisData).range_overview =
        (p.pis_data.getD emptyPisData).range_overview ∧
      ((api_save_draft p d).spec_data.getD
        emptySpecData).customer_friendly_description =
        (p.spec_data.getD emptySpecData).customer_friendly_description) ∧
    (draftFeatures d = none →
      ((api_save_draft p d).pis_data.getD emptyPisData).sales_arguments =
        (p.pis_data.getD emptyPisData).sales_arguments ∧
      ((api_save_draft p d).spec_data.getD emptySpecData).key_features =
        (p.spec_data.getD emptySpecData).key_features) ∧
    (d.key_features = some [] → d.sales_argument = none →
      d.sales_arguments = none → draftFeatures d = none) ∧
    (d.technical_specifications = none →
      ((api_save_draft p d).pis_data.getD
        emptyPisData).technical_specifications =
        (p.pis_data.getD emptyPisData).technical_specifications ∧
      ((api_save_draft p d).spec_data.getD
        emptySpecData).technical_specifications =
        (p.spec_data.getD emptySpecData).technical_specifications) := by
  by_cases hd : d = emptyDraftData
  · subst hd
    refine ⟨fun h => ⟨?_, ?_⟩, fun h1 h2 => ⟨?_, ?_⟩, fun h => ⟨?_, ?_⟩,
      fun h1 h2 h3 => rfl, fun h => ⟨?_, ?_⟩⟩ <;>
      simp [api_save_draft]
  · rw [api_save_draft_eq p d hd]
    simp only [Option.getD_some]
    refine ⟨?_, ?_, ?_, ?_, ?_⟩
    · intro h
      constructor <;> simp [pisAfter, specAfter, h]
    · intro h1 h2
      constructor <;> simp [pisAfter, specAfter, descUpdate, h1, h2]
    · intro h
      constructor <;> simp [pisAfter, specAfter, h]
    · intro h1 h2 h3
      simp [draftFeatures, pyOrL, h1, h2, h3]
    · intro h
      constructor <;> simp [pisAfter, specAfter, h]

/-- A draft-save body supplying only an empty feature list under
`key_features`. -/
def c4EmptyFeatures : DraftData where
  product_name := none
  model_number := none
  brand := none
  price_estimate := none
  range_overview := none
  customer_friendly_description := none
  key_features := some []
  sales_argument := none
  sales_arguments := none
  technical_specifications := none
  warranty_period := none
  warranty_coverage := none
  seo_meta_title := none
  seo_meta_description := none
  seo_keywords := none
  seo_meta_keywords := none
  internal_web_keywords := none
  category_1 := none
  category_2 := none
  category_3 := none
  director_general_comments := none

/-- C4 witness: a concrete save posting an empty `key_features` list
leaves header and feature fields of both documents untouched. -/
theorem claim_C4_absent_edit_protection_witness :
    ((api_save_draft c4Product c4EmptyFeatures).pis_data.getD
      emptyPisData).header_info =
      (c4Product.pis_data.getD emptyPisData).header_info ∧
    ((api_save_draft c4Product c4EmptyFeatures).pis_data.getD
      emptyPisData).sales_arguments =
      (c4Product.pis_data.getD emptyPisData).sales_arguments ∧
    ((api_save_draft c4Product c4EmptyFeatures).spec_data.getD
      emptySpecData).key_features =
      (c4Product.spec_data.getD emptySpecData).key_features := by
  have h := claim_C4_absent_edit_protection c4Product c4EmptyFeatures
  have hfeat : draftFeatures c4EmptyFeatures = none := h.2.2.2.1 rfl rfl rfl
  exact ⟨(h.1 rfl).1, (h.2.2.1 hfeat).1, (h.2.2.1 hfeat).2⟩
